import Mathlib

/-
Verification of the zero-copy buffer-ownership layer
(include/perfetto/trace_processor/trace_blob_view.h) and of the heap-profile
delta tracker (src/trace_processor/heap_profile_tracker.h) of this repository.

Modelling conventions:
  * size_t values are naturals; size_t additions that the C++ performs in
    unsigned 64-bit arithmetic are taken modulo 2^64 where overflow can occur
    (the comparisons inside PERFETTO_DCHECK conditions).
  * uint32_t casts are taken modulo 2^32.
  * PERFETTO_DCHECK failures are modelled as a RangeError result, matching
    the spec's description of range violations as construction-time errors.
  * Pointers are modelled as offsets from the blob base; the null pointer of
    an empty view is modelled as the absence of a blob reference.
-/

namespace PerfettoModel

def sizeTMod : Nat := 2 ^ 64

def uint32Max : Nat := 2 ^ 32 - 1

/-- TraceBlob of trace_blob.h is not among the sources; only its refcount is
relevant here. Refcount state of one blob plus the number of times its
backing memory has been released. -/
structure BlobState where
  refcount : Nat
  freeCount : Nat
deriving DecidableEq

/-- Modelled from the spec: TraceBlob construction (trace_blob.h is absent);
the spec says the refcount starts at 0 at construction and memory is released
exactly when the refcount reaches 0 after a decrement. -/
def makeBlob : BlobState := ⟨0, 0⟩

/-- TraceBlob.IncRefcount, modelled from the spec (trace_blob.h absent):
increment the reference count. Called by both TraceBlobView constructors
(trace_blob_view.h lines 64 and 122). -/
def incRefcount (s : BlobState) : BlobState := ⟨s.refcount + 1, s.freeCount⟩

/-- TraceBlob.DecRefcountAndDeleteIfZero, modelled from the spec
(trace_blob.h absent): decrement the reference count and release the backing
memory when it reaches zero. Called by the TraceBlobView destructor
(trace_blob_view.h line 72). -/
def decRefcountAndDeleteIfZero (s : BlobState) : BlobState :=
  if s.refcount - 1 = 0 then ⟨s.refcount - 1, s.freeCount + 1⟩
  else ⟨s.refcount - 1, s.freeCount⟩

/-- The fields of TraceBlobView (trace_blob_view.h lines 125-127):
data_ is kept as an offset from the blob base, length_ is the uint32_t
length, blob is the blob_refcounted_ pointer (none models nullptr). -/
structure TraceBlobView where
  data : Nat
  length : Nat
  blob : Option Nat
deriving DecidableEq

/-- Range violation, the error a failed PERFETTO_DCHECK on a range condition
surfaces (the spec's RangeError). -/
inductive CtorError where
  | rangeError
deriving DecidableEq

/-- kWholeBlob sentinel, trace_blob_view.h line 50:
std::numeric_limits of size_t, max value. -/
def kWholeBlob : Nat := 2 ^ 64 - 1

/-- A TraceBlob as seen by the public constructor: its identity (address) and
its size in bytes. -/
structure TraceBlobInfo where
  id : Nat
  size : Nat
deriving DecidableEq

/-- The public constructor TraceBlobView(TraceBlob, offset, length),
trace_blob_view.h lines 51-65, translated check for check.
Note on line 60: the C++ DCHECK is written
  PERFETTO_DCHECK(offset + length_ <= blob.size());
and reads the member length_, which still holds its default-initialized
value 0 at that point (the parameter is named length; length_ is assigned
only on line 61). The embedding keeps that behavior: the third check below
compares offset + 0, not offset + length, against blob.size. -/
def TraceBlobView.construct (blob : TraceBlobInfo) (offset length : Nat) :
    Except CtorError TraceBlobView :=
  let lengthMemberBeforeAssignment : Nat := 0
  if ¬ (offset ≤ uint32Max) then Except.error CtorError.rangeError
  else if length = kWholeBlob then
    Except.ok ⟨offset, ((blob.size + sizeTMod - offset) % sizeTMod) % 2 ^ 32, some blob.id⟩
  else if ¬ (length ≤ uint32Max) then Except.error CtorError.rangeError
  else if ¬ ((offset + lengthMemberBeforeAssignment) % sizeTMod ≤ blob.size) then
    Except.error CtorError.rangeError
  else Except.ok ⟨offset, length % 2 ^ 32, some blob.id⟩

/-- TraceBlobView::slice_off (trace_blob_view.h lines 100-104): checks
PERFETTO_DCHECK(off + length <= length_) — a size_t comparison, so the sum
wraps modulo 2^64 — then builds a view via the private constructor
(lines 120-123), which shares blob_refcounted_ and increments the refcount;
the length argument passes through static_cast to uint32_t. -/
def TraceBlobView.slice_off (v : TraceBlobView) (off length : Nat) (s : BlobState) :
    Except CtorError (TraceBlobView × BlobState) :=
  if (off + length) % sizeTMod ≤ v.length then
    Except.ok (⟨v.data + off, length % 2 ^ 32, v.blob⟩, incRefcount s)
  else Except.error CtorError.rangeError

/-- The trivial empty constructor, trace_blob_view.h line 68:
data_ = nullptr, length_ = 0, blob_refcounted_ = nullptr. -/
def TraceBlobView.defaultView : TraceBlobView := ⟨0, 0, none⟩

/-- Move assignment, trace_blob_view.h lines 78-86: the destination takes
over data_, length_ and blob_refcounted_; only blob_refcounted_ of the
source is nulled out; no refcount operation is performed. Returns
(new destination, moved-from source). -/
def TraceBlobView.moveAssign (_dst src : TraceBlobView) :
    TraceBlobView × TraceBlobView :=
  (⟨src.data, src.length, src.blob⟩, ⟨src.data, src.length, none⟩)

/-- The destructor, trace_blob_view.h lines 70-73: decrement-and-maybe-free
only when blob_refcounted_ is non-null. The BlobState argument is the state
of the blob the view references (unchanged when it references none). -/
def TraceBlobView.destroyView (v : TraceBlobView) (s : BlobState) : BlobState :=
  match v.blob with
  | none => s
  | some _ => decRefcountAndDeleteIfZero s

/-- View-lifetime events on one blob: slice stands for any attach of a new
view to the blob (slice, slice_off or copy, which all route through the
private refcounting constructor), destroy is a view destruction. -/
inductive ViewOp where
  | slice
  | destroy
deriving DecidableEq

def countSlices : List ViewOp → Nat
  | [] => 0
  | ViewOp.slice :: rest => countSlices rest + 1
  | ViewOp.destroy :: rest => countSlices rest

def countDestroys : List ViewOp → Nat
  | [] => 0
  | ViewOp.slice :: rest => countDestroys rest
  | ViewOp.destroy :: rest => countDestroys rest + 1

/-- Run a list of view events against the blob state: each slice increments
the refcount (private constructor, line 122), each destroy runs
DecRefcountAndDeleteIfZero (line 72). -/
def runOps : BlobState → List ViewOp → BlobState
  | s, [] => s
  | s, ViewOp.slice :: rest => runOps (incRefcount s) rest
  | s, ViewOp.destroy :: rest => runOps (decRefcountAndDeleteIfZero s) rest

/-- An event list is valid for a number of live views when every slice and
every destroy happens while at least one view is alive (a slice needs a live
parent view, a destroy needs a live view to destroy). -/
def validOps : Nat → List ViewOp → Bool
  | _, [] => true
  | live, ViewOp.slice :: rest => decide (0 < live) && validOps (live + 1) rest
  | live, ViewOp.destroy :: rest => decide (0 < live) && validOps (live - 1) rest

/-
Heap-profile delta tracker. Only the header
src/trace_processor/heap_profile_tracker.h is among the sources (the .cc
implementation is absent), so the operation bodies below are modelled from
the spec, with the data shapes taken from the header:
SourceAllocation (lines 37-47) and SequenceState (lines 77-88).
-/

/-- SourceAllocation, heap_profile_tracker.h lines 37-47. -/
structure SourceAllocation where
  pid : Nat
  timestamp : Int
  callstack_id : Nat
  self_allocated : Nat
  self_freed : Nat
  alloc_count : Nat
  free_count : Nat
deriving DecidableEq

/-- A Committed Row, spec section 6: subject, resolved callsite, timestamp
and the four incremental deltas of this dump. Deltas are integers so that
the never-negative policy is expressible. -/
structure CommittedRow where
  subject : Nat
  callsite : Nat
  timestamp : Int
  alloc_count_delta : Int
  alloc_bytes_delta : Int
  free_count_delta : Int
  free_bytes_delta : Int
deriving DecidableEq

/-- Diagnostic warnings of the failure taxonomy of spec section 7 that the
tracker emits without aborting. -/
inductive Warning where
  | unresolvedCallsite (local_id : Nat)
  | negativeDelta
  | duplicatePacketIndex (idx : Nat)
deriving DecidableEq

/-- The prev_alloc / prev_free maps of SequenceState
(heap_profile_tracker.h lines 80-85), keyed by (UniquePid, CallsiteId) and
holding the last-committed cumulative (bytes, count) totals; modelled as an
association list. -/
abbrev TotalsMap : Type := List ((Nat × Nat) × (Nat × Nat))

def mapLookup (m : TotalsMap) (k : Nat × Nat) : Option (Nat × Nat) :=
  match m with
  | [] => none
  | (k2, v) :: rest => if k2 = k then some v else mapLookup rest k

def mapInsert (m : TotalsMap) (k : Nat × Nat) (v : Nat × Nat) : TotalsMap :=
  match m with
  | [] => [(k, v)]
  | (k2, v2) :: rest => if k2 = k then (k, v) :: rest else (k2, v2) :: mapInsert rest k v

/-- SequenceState, heap_profile_tracker.h lines 77-88: pending samples not
yet committed, the two prior-totals maps and the last observed profile
packet index (initially 0, line 87). -/
structure SequenceState where
  pending_allocs : List SourceAllocation
  prev_alloc : TotalsMap
  prev_free : TotalsMap
  last_profile_packet_index : Nat
deriving DecidableEq

def SequenceState.init : SequenceState := ⟨[], [], [], 0⟩

/-- The InternLookup used at the dump boundary: local callstack id to
resolved CallsiteId, or none when the interning record never arrived. -/
abbrev InternLookup : Type := Nat → Option Nat

/-- Modelled from the spec: delta computation of FinalizeDump step 3
(heap_profile_tracker.cc absent): incremental delta = current cumulative
minus prior cumulative; a negative delta is clamped to zero with a
warning. -/
def clampDelta (cur prior : Nat) : Int × List Warning :=
  if cur < prior then (0, [Warning.negativeDelta])
  else ((cur : Int) - (prior : Int), [])

/-- Modelled from the spec: AddAllocation (declared at
heap_profile_tracker.h lines 71-75, body absent), the per-sample work of
FinalizeDump steps 1-5: resolve the local callsite id (drop the sample with
a warning when unresolved), read the prior cumulative totals (absent means
zero), clamp-subtract per counter, emit one row unless every delta is zero,
and update the prior-totals maps to the new cumulative values. Returns the
updated state, the emitted rows and the warnings. -/
def addAllocation (lookup : InternLookup) (st : SequenceState)
    (a : SourceAllocation) : SequenceState × List CommittedRow × List Warning :=
  match lookup a.callstack_id with
  | none => (st, [], [Warning.unresolvedCallsite a.callstack_id])
  | some cs =>
    let key : Nat × Nat := (a.pid, cs)
    let prevA := (mapLookup st.prev_alloc key).getD (0, 0)
    let prevF := (mapLookup st.prev_free key).getD (0, 0)
    let dAllocBytes := clampDelta a.self_allocated prevA.1
    let dAllocCount := clampDelta a.alloc_count prevA.2
    let dFreeBytes := clampDelta a.self_freed prevF.1
    let dFreeCount := clampDelta a.free_count prevF.2
    let row : CommittedRow :=
      ⟨a.pid, cs, a.timestamp, dAllocCount.1, dAllocBytes.1, dFreeCount.1, dFreeBytes.1⟩
    let rows :=
      if dAllocBytes.1 = 0 ∧ dAllocCount.1 = 0 ∧ dFreeBytes.1 = 0 ∧ dFreeCount.1 = 0
      then ([] : List CommittedRow) else [row]
    let st2 : SequenceState :=
      ⟨st.pending_allocs,
       mapInsert st.prev_alloc key (a.self_allocated, a.alloc_count),
       mapInsert st.prev_free key (a.self_freed, a.free_count),
       st.last_profile_packet_index⟩
    (st2, rows, dAllocBytes.2 ++ dAllocCount.2 ++ dFreeBytes.2 ++ dFreeCount.2)

/-- Modelled from the spec: the in-arrival-order commit loop of FinalizeDump
over the pending samples (heap_profile_tracker.cc absent). -/
def commitList (lookup : InternLookup) :
    SequenceState → List SourceAllocation →
    SequenceState × List CommittedRow × List Warning
  | st, [] => (st, [], [])
  | st, a :: rest =>
    let r1 := addAllocation lookup st a
    let r2 := commitList lookup r1.1 rest
    (r2.1, r1.2.1 ++ r2.2.1, r1.2.2 ++ r2.2.2)

/-- StoreAllocation (heap_profile_tracker.h line 53), modelled from the
spec: append the sample to the sequence's pending list; no resolution and
no deltaing happen here, so the call takes no interning table and cannot
fail. -/
def storeAllocation (st : SequenceState) (a : SourceAllocation) : SequenceState :=
  ⟨st.pending_allocs ++ [a], st.prev_alloc, st.prev_free,
   st.last_profile_packet_index⟩

/-- CommitAllocations (heap_profile_tracker.h lines 64-66), modelled from
the spec: identical to FinalizeDump's commit but does not clear the pending
state. -/
def commitAllocations (lookup : InternLookup) (st : SequenceState) :
    SequenceState × List CommittedRow × List Warning :=
  commitList lookup st st.pending_allocs

/-- FinalizeProfile (heap_profile_tracker.h lines 58-60) together with the
packet-index tracking of SetProfilePacketIndex (line 49), modelled from the
spec: a FinalizeDump carries a monotonic packet index; an index less than
or equal to the last-recorded one makes the dump a duplicate and a logged
no-op; otherwise all pending samples are committed in arrival order, the
pending list is cleared and the last-recorded index is updated. -/
def finalizeProfile (lookup : InternLookup) (idx : Nat) (st : SequenceState) :
    SequenceState × List CommittedRow × List Warning :=
  if idx ≤ st.last_profile_packet_index then
    (st, [], [Warning.duplicatePacketIndex idx])
  else
    let r := commitList lookup st st.pending_allocs
    (⟨[], r.1.prev_alloc, r.1.prev_free, idx⟩, r.2.1, r.2.2)

/-- One full dump on a sequence: store one sample, then finalize with the
given packet index. -/
def dump (lookup : InternLookup) (idx : Nat) (st : SequenceState)
    (a : SourceAllocation) : SequenceState × List CommittedRow × List Warning :=
  finalizeProfile lookup idx (storeAllocation st a)

/-- A sample that only reports cumulative allocated bytes. -/
def allocSample (p l : Nat) (ts : Int) (c : Nat) : SourceAllocation :=
  ⟨p, ts, l, c, 0, 0, 0⟩

/-- A sample reporting cumulative allocated bytes and cumulative freed
bytes. -/
def allocFreeSample (p l : Nat) (ts : Int) (c f : Nat) : SourceAllocation :=
  ⟨p, ts, l, c, f, 0, 0⟩

/-- Three successive single-sample dumps on one sequence for the same
(subject, local callsite), with cumulative allocated-bytes totals c1, c2,
c3; returns the rows emitted by each of the three dumps. -/
def threeDumps (lookup : InternLookup) (p l : Nat) (ts : Int) (c1 c2 c3 : Nat) :
    List CommittedRow × List CommittedRow × List CommittedRow :=
  let d1 := dump lookup 1 SequenceState.init (allocSample p l ts c1)
  let d2 := dump lookup 2 d1.1 (allocSample p l ts c2)
  let d3 := dump lookup 3 d2.1 (allocSample p l ts c3)
  (d1.2.1, d2.2.1, d3.2.1)

def sumAllocBytes (rows : List CommittedRow) : Int :=
  (rows.map (fun r => r.alloc_bytes_delta)).sum

/-- A concrete interning table: local id 3 resolves to callsite 7, nothing
else resolves. -/
def lkA : InternLookup := fun i => if i = 3 then some 7 else none

/-- An interning table with no entries. -/
def lkNone : InternLookup := fun _ => none

/-- Two successive single-sample dumps for the same (subject, local
callsite): first dump reports cumulative allocated bytes c1 (and no frees),
the second reports cumulative allocated bytes c2 and cumulative freed bytes
f; returns the state, rows and warnings of the second dump. -/
def clampScenario (lookup : InternLookup) (p l : Nat) (ts : Int) (c1 c2 f : Nat) :
    SequenceState × List CommittedRow × List Warning :=
  dump lookup 2 (dump lookup 1 SequenceState.init (allocFreeSample p l ts c1 0)).1
    (allocFreeSample p l ts c2 f)

/-- Store two samples on a fresh sequence (s2 first, then s1) and finalize
the dump with packet index 1. -/
def lagScenario (lookup : InternLookup) (s1 s2 : SourceAllocation) :
    SequenceState × List CommittedRow × List Warning :=
  finalizeProfile lookup 1 (storeAllocation (storeAllocation SequenceState.init s2) s1)

/-- Move construction, trace_blob_view.h line 76: delegates to move
assignment on a default-initialized destination. -/
def TraceBlobView.moveConstruct (src : TraceBlobView) :
    TraceBlobView × TraceBlobView :=
  TraceBlobView.moveAssign TraceBlobView.defaultView src

/-- Claim C1: the claim says construction of a view from a blob with an
explicit offset and length fails with RangeError whenever offset + length
exceeds the blob's size. The code does not: the DCHECK on
trace_blob_view.h line 60 reads the member length_ — still holding its
default value 0 at that point — instead of the parameter length, so it only
checks offset against the blob size. On a blob of size 3 with offset 2 and
length 5 (2 + 5 > 3) construction succeeds and yields a 5-byte view over a
3-byte blob. -/
theorem c1_range_check_bug :
    TraceBlobView.construct ⟨0, 3⟩ 2 5 = Except.ok ⟨2, 5, some 0⟩ ∧ 3 < 2 + 5 :=
  ⟨rfl, by decide⟩

/-- Claim C2, counterexample to the claim as stated: slicing a view of
length 10 with offset 5 and length 2^64 - 3 is not a contained subrange,
yet the size_t sum 5 + (2^64 - 3) wraps to 2 in the DCHECK of
trace_blob_view.h line 101, the check 2 <= 10 passes, and slice_off
succeeds, returning a view of truncated uint32 length 2^32 - 3 that lies
far outside the parent's range. -/
theorem c2_counterexample :
    ¬ 5 + (2 ^ 64 - 3) ≤ (⟨0, 10, some 0⟩ : TraceBlobView).length ∧
    TraceBlobView.slice_off ⟨0, 10, some 0⟩ 5 (2 ^ 64 - 3) ⟨1, 0⟩ =
      Except.ok (⟨5, 2 ^ 32 - 3, some 0⟩, ⟨2, 0⟩) :=
  ⟨by decide, rfl⟩

/-- Claim C2, amended: for a view of length L (L < 2^32, as guaranteed by
the uint32_t length_ field), slice_off on a contained subrange (a, b)
(a + b <= L) succeeds and returns a view over exactly that subrange of the
same blob reference while incrementing the shared refcount by one; on a
subrange that is not contained it fails with RangeError provided the size_t
sum a + b does not overflow (a + b < 2^64). -/
theorem c2_slice_containment (v : TraceBlobView) (s : BlobState) (a b : Nat)
    (hlen : v.length < 2 ^ 32) :
    (a + b ≤ v.length →
      TraceBlobView.slice_off v a b s =
        Except.ok (⟨v.data + a, b, v.blob⟩, incRefcount s)) ∧
    (¬ a + b ≤ v.length → a + b < 2 ^ 64 →
      TraceBlobView.slice_off v a b s = Except.error CtorError.rangeError) := by
  constructor
  · intro hab
    unfold TraceBlobView.slice_off
    have hmod : (a + b) % sizeTMod = a + b := by
      unfold sizeTMod
      exact Nat.mod_eq_of_lt (by omega)
    have hb : b % 2 ^ 32 = b := Nat.mod_eq_of_lt (by omega)
    rw [if_pos (by rw [hmod]; exact hab), hb]
  · intro hab hlt
    unfold TraceBlobView.slice_off
    have hmod : (a + b) % sizeTMod = a + b := by
      unfold sizeTMod
      exact Nat.mod_eq_of_lt hlt
    rw [if_neg (by rw [hmod]; exact hab)]

/-- Witness for c2_slice_containment: a concrete contained slice. -/
theorem c2_slice_containment_witness :
    (⟨4, 10, some 2⟩ : TraceBlobView).length < 2 ^ 32 ∧
    TraceBlobView.slice_off ⟨4, 10, some 2⟩ 5 3 ⟨3, 0⟩ =
      Except.ok (⟨4 + 5, 3, some 2⟩, incRefcount ⟨3, 0⟩) :=
  ⟨by decide, (c2_slice_containment ⟨4, 10, some 2⟩ ⟨3, 0⟩ 5 3 (by decide)).1 (by decide)⟩

/-- Claim C6: a FinalizeDump whose packet index is less than or equal to
the last-recorded index for the sequence is a no-op: no rows are committed
and the whole sequence state — pending list, both prior-totals maps and the
last-recorded index — is unchanged; only a duplicate warning is logged. -/
theorem c6_duplicate_finalize_noop (lookup : InternLookup) (idx : Nat)
    (st : SequenceState) (h : idx ≤ st.last_profile_packet_index) :
    finalizeProfile lookup idx st = (st, [], [Warning.duplicatePacketIndex idx]) := by
  unfold finalizeProfile
  rw [if_pos h]

/-- Witness for c6_duplicate_finalize_noop at a concrete sequence state. -/
theorem c6_duplicate_finalize_noop_witness :
    (5 : Nat) ≤ (⟨[], [], [], 5⟩ : SequenceState).last_profile_packet_index ∧
    finalizeProfile lkNone 5 ⟨[], [], [], 5⟩ =
      (⟨[], [], [], 5⟩, [], [Warning.duplicatePacketIndex 5]) :=
  ⟨by decide, c6_duplicate_finalize_noop lkNone 5 ⟨[], [], [], 5⟩ (by decide)⟩

/-- Claim C9: move assignment transfers data_, length_ and the
blob_refcounted_ reference to the destination; the moved-from view holds no
blob reference afterwards; no refcount operation happens — destroying both
resulting views has exactly the same effect on the blob state as destroying
the original view once. Move construction delegates to move assignment on a
default destination. -/
theorem c9_move_transfers_reference (dst src : TraceBlobView) (s : BlobState) :
    (TraceBlobView.moveAssign dst src).1 = ⟨src.data, src.length, src.blob⟩ ∧
    (TraceBlobView.moveAssign dst src).2.blob = none ∧
    TraceBlobView.destroyView (TraceBlobView.moveAssign dst src).2
        (TraceBlobView.destroyView (TraceBlobView.moveAssign dst src).1 s) =
      TraceBlobView.destroyView src s ∧
    TraceBlobView.moveConstruct src = TraceBlobView.moveAssign dst src := by
  refine ⟨rfl, rfl, ?_, rfl⟩
  unfold TraceBlobView.moveAssign TraceBlobView.destroyView
  cases src.blob <;> rfl

/-- Claim C10: destroying a view that holds no blob reference (the default
view, or a moved-from view) leaves any blob state untouched: no refcount is
decremented and no deallocation can occur, whatever the prior history
encoded in s. -/
theorem c10_destroy_empty_view_noop (v u : TraceBlobView) (s : BlobState)
    (h : v.blob = none) :
    TraceBlobView.destroyView v s = s ∧
    TraceBlobView.destroyView TraceBlobView.defaultView s = s ∧
    TraceBlobView.destroyView (TraceBlobView.moveAssign u v).2 s = s := by
  refine ⟨?_, rfl, rfl⟩
  unfold TraceBlobView.destroyView
  rw [h]

/-- Witness for c10_destroy_empty_view_noop on the default view. -/
theorem c10_destroy_empty_view_noop_witness :
    TraceBlobView.defaultView.blob = none ∧
    TraceBlobView.destroyView TraceBlobView.defaultView ⟨3, 0⟩ = ⟨3, 0⟩ :=
  ⟨rfl,
   (c10_destroy_empty_view_noop TraceBlobView.defaultView ⟨5, 7, some 1⟩ ⟨3, 0⟩ rfl).1⟩

/-- No view event is valid once no view is alive. -/
theorem validOps_zero (ops : List ViewOp) (h : validOps 0 ops = true) : ops = [] := by
  cases ops with
  | nil => rfl
  | cons op rest => cases op <;> simp [validOps] at h

/-- Validity restricts to an initial segment of the event list. -/
theorem validOps_append_left (p q : List ViewOp) :
    ∀ live, validOps live (p ++ q) = true → validOps live p = true := by
  induction p with
  | nil => intro live _; rfl
  | cons op rest ih =>
    intro live h
    cases op with
    | slice =>
      simp only [List.cons_append, validOps, Bool.and_eq_true, decide_eq_true_eq] at h ⊢
      exact ⟨h.1, ih (live + 1) h.2⟩
    | destroy =>
      simp only [List.cons_append, validOps, Bool.and_eq_true, decide_eq_true_eq] at h ⊢
      exact ⟨h.1, ih (live - 1) h.2⟩

/-- Running a valid event list with the refcount equal to the number of
live views: the final refcount is live + slices - destroys, and the memory
is released exactly once when and only when every view has been destroyed
(destroys = live + slices), never otherwise. -/
theorem runOps_count (ops : List ViewOp) :
    ∀ live fc, 0 < live → validOps live ops = true →
    runOps ⟨live, fc⟩ ops =
      ⟨live + countSlices ops - countDestroys ops,
       fc + if live + countSlices ops = countDestroys ops then 1 else 0⟩ := by
  induction ops with
  | nil =>
    intro live fc hlive _
    simp only [runOps, countSlices, countDestroys]
    rw [if_neg (by omega)]
    simp
  | cons op rest ih =>
    intro live fc hlive hv
    cases op with
    | slice =>
      simp only [validOps, Bool.and_eq_true, decide_eq_true_eq] at hv
      have hrun : runOps ⟨live, fc⟩ (ViewOp.slice :: rest) =
          runOps ⟨live + 1, fc⟩ rest := rfl
      rw [hrun, ih (live + 1) fc (by omega) hv.2]
      simp only [countSlices, countDestroys]
      have h1 : live + 1 + countSlices rest = live + (countSlices rest + 1) := by omega
      rw [h1]
    | destroy =>
      simp only [validOps, Bool.and_eq_true, decide_eq_true_eq] at hv
      have hrun : runOps ⟨live, fc⟩ (ViewOp.destroy :: rest) =
          runOps (decRefcountAndDeleteIfZero ⟨live, fc⟩) rest := rfl
      rw [hrun]
      by_cases h1 : live = 1
      · subst h1
        have hdec : decRefcountAndDeleteIfZero ⟨1, fc⟩ = ⟨0, fc + 1⟩ := rfl
        rw [hdec]
        have hrest : rest = [] := validOps_zero rest hv.2
        subst hrest
        simp only [runOps, countSlices, countDestroys]
        norm_num
      · have hne : live - 1 ≠ 0 := by omega
        have hdec : decRefcountAndDeleteIfZero ⟨live, fc⟩ = ⟨live - 1, fc⟩ := by
          simp [decRefcountAndDeleteIfZero, hne]
        rw [hdec, ih (live - 1) fc (by omega) hv.2]
        simp only [countSlices, countDestroys]
        by_cases hc : live - 1 + countSlices rest = countDestroys rest
        · rw [if_pos hc,
            if_pos (show live + countSlices rest = countDestroys rest + 1 by omega)]
          rw [show live - 1 + countSlices rest - countDestroys rest =
              live + countSlices rest - (countDestroys rest + 1) by omega]
        · rw [if_neg hc,
            if_neg (show ¬ live + countSlices rest = countDestroys rest + 1 by omega)]
          rw [show live - 1 + countSlices rest - countDestroys rest =
              live + countSlices rest - (countDestroys rest + 1) by omega]

/-- Claim C3: a fresh blob has refcount 0; attaching the first view (the
public constructor's IncRefcount) makes it 1; then, for every valid
interleaving of slices and destroys — any creation and destruction order —
the memory is released exactly once if and only if the number of destroys
equals the total number of views N = 1 + slices, and along every initial
segment of the history the memory has been released at most once and only
after all views created so far were destroyed (never while a view is
alive). -/
theorem c3_refcount_exactly_once (ops : List ViewOp) (h : validOps 1 ops = true) :
    makeBlob.refcount = 0 ∧
    (incRefcount makeBlob).refcount = 1 ∧
    (runOps (incRefcount makeBlob) ops).freeCount =
      (if countDestroys ops = 1 + countSlices ops then 1 else 0) ∧
    (∀ p q, ops = p ++ q →
      (runOps (incRefcount makeBlob) p).freeCount ≤ 1 ∧
      ((runOps (incRefcount makeBlob) p).freeCount = 1 →
        countDestroys p = 1 + countSlices p)) := by
  have hrun : ∀ l, validOps 1 l = true →
      (runOps (incRefcount makeBlob) l).freeCount =
        if 1 + countSlices l = countDestroys l then 1 else 0 := by
    intro l hl
    have hc := runOps_count l 1 0 (by omega) hl
    rw [show incRefcount makeBlob = (⟨1, 0⟩ : BlobState) from rfl, hc]
    simp
  refine ⟨rfl, rfl, ?_, ?_⟩
  · rw [hrun ops h]
    by_cases hc : 1 + countSlices ops = countDestroys ops
    · rw [if_pos hc, if_pos (by omega)]
    · rw [if_neg hc, if_neg (by omega)]
  · intro p q hpq
    have hp : validOps 1 p = true := validOps_append_left p q 1 (hpq ▸ h)
    rw [hrun p hp]
    by_cases hc : 1 + countSlices p = countDestroys p
    · rw [if_pos hc]
      exact ⟨le_refl 1, fun _ => by omega⟩
    · rw [if_neg hc]
      exact ⟨by omega, fun h0 => by omega⟩

/-- Witness for c3_refcount_exactly_once: one blob, two views (the original
and one slice), destroyed in creation order; the memory is released exactly
once. -/
theorem c3_refcount_exactly_once_witness :
    validOps 1 [ViewOp.slice, ViewOp.destroy, ViewOp.destroy] = true ∧
    (runOps (incRefcount makeBlob)
        [ViewOp.slice, ViewOp.destroy, ViewOp.destroy]).freeCount =
      (if countDestroys [ViewOp.slice, ViewOp.destroy, ViewOp.destroy] =
          1 + countSlices [ViewOp.slice, ViewOp.destroy, ViewOp.destroy]
       then 1 else 0) :=
  ⟨by decide,
   (c3_refcount_exactly_once [ViewOp.slice, ViewOp.destroy, ViewOp.destroy]
     (by decide)).2.2.1⟩

/-- Claim C5: when the cumulative total decreases between two dumps
(c2 < c1), the delta committed for that counter is the clamp result 0 —
never a negative value — a negative-delta warning is emitted, and the dump
is not aborted: the sample's other counters are still committed (here a
freed-bytes delta f), the pending list is cleared and the packet index is
advanced. -/
theorem c5_negative_delta_clamped (lookup : InternLookup) (p l cs : Nat) (ts : Int)
    (c1 c2 f : Nat) (hl : lookup l = some cs) (hdec : c2 < c1) (hf : 0 < f) :
    clampDelta c2 c1 = (0, [Warning.negativeDelta]) ∧
    (clampScenario lookup p l ts c1 c2 f).2.1 = [⟨p, cs, ts, 0, 0, 0, (f : Int)⟩] ∧
    Warning.negativeDelta ∈ (clampScenario lookup p l ts c1 c2 f).2.2 ∧
    (clampScenario lookup p l ts c1 c2 f).1.pending_allocs = [] ∧
    (clampScenario lookup p l ts c1 c2 f).1.last_profile_packet_index = 2 := by
  have hc1 : ¬ c1 = 0 := by omega
  have hfne : ¬ f = 0 := by omega
  have hmain : clampScenario lookup p l ts c1 c2 f =
      (⟨[], [((p, cs), (c2, 0))], [((p, cs), (f, 0))], 2⟩,
       [⟨p, cs, ts, 0, 0, 0, (f : Int)⟩],
       [Warning.negativeDelta]) := by
    simp [clampScenario, dump, finalizeProfile, storeAllocation, SequenceState.init,
      commitList, addAllocation, clampDelta, mapLookup, mapInsert, allocFreeSample,
      hl, hdec, hc1, hfne, Nat.not_lt_zero]
  rw [hmain]
  refine ⟨?_, rfl, ?_, rfl, rfl⟩
  · simp [clampDelta, hdec]
  · simp

/-- Witness for c5_negative_delta_clamped: totals drop from 10 to 4 while
freed bytes rise to 2; the committed row carries an alloc-bytes delta of
exactly 0. -/
theorem c5_negative_delta_clamped_witness :
    lkA 3 = some 7 ∧ (4 : Nat) < 10 ∧ (0 : Nat) < 2 ∧
    (clampScenario lkA 1 3 0 10 4 2).2.1 = [⟨1, 7, 0, 0, 0, 0, ((2 : Nat) : Int)⟩] :=
  ⟨rfl, by decide, by decide,
   (c5_negative_delta_clamped lkA 1 3 7 0 10 4 2 rfl (by decide) (by decide)).2.1⟩

/-- Claim C7: StoreSample never consults the interning table — it only
appends to the pending list and cannot fail — so a sample whose local
callsite id is interned only after StoreSample but before FinalizeDump
(present in the lookup passed at the dump boundary) resolves and is
committed with its cumulative values as first deltas; a sample whose
interning record never arrives (lookup yields none) is dropped with a
per-sample warning while the dump still completes: the other sample's row
is committed and the pending list is cleared. -/
theorem c7_interning_lag (lookup : InternLookup) (s1 s2 : SourceAllocation) (cs : Nat)
    (h1 : lookup s1.callstack_id = some cs)
    (h2 : lookup s2.callstack_id = none)
    (h3 : 0 < s1.self_allocated) :
    (∀ st : SequenceState,
      (storeAllocation st s1).pending_allocs = st.pending_allocs ++ [s1]) ∧
    (lagScenario lookup s1 s2).2.1 =
      [⟨s1.pid, cs, s1.timestamp, (s1.alloc_count : Int), (s1.self_allocated : Int),
        (s1.free_count : Int), (s1.self_freed : Int)⟩] ∧
    (lagScenario lookup s1 s2).2.2 = [Warning.unresolvedCallsite s2.callstack_id] ∧
    (lagScenario lookup s1 s2).1.pending_allocs = [] := by
  have h3ne : ¬ s1.self_allocated = 0 := by omega
  have hmain : lagScenario lookup s1 s2 =
      (⟨[], [((s1.pid, cs), (s1.self_allocated, s1.alloc_count))],
        [((s1.pid, cs), (s1.self_freed, s1.free_count))], 1⟩,
       [⟨s1.pid, cs, s1.timestamp, (s1.alloc_count : Int), (s1.self_allocated : Int),
         (s1.free_count : Int), (s1.self_freed : Int)⟩],
       [Warning.unresolvedCallsite s2.callstack_id]) := by
    simp [lagScenario, finalizeProfile, storeAllocation, SequenceState.init,
      commitList, addAllocation, clampDelta, mapLookup, mapInsert,
      h1, h2, h3ne, Nat.not_lt_zero]
  rw [hmain]
  exact ⟨fun st => rfl, rfl, rfl, rfl⟩

/-- Witness for c7_interning_lag: sample with local id 3 (resolvable via
lkA) is committed, sample with local id 9 (never interned) is dropped with
a warning. -/
theorem c7_interning_lag_witness :
    lkA (⟨1, 0, 3, 100, 0, 2, 0⟩ : SourceAllocation).callstack_id = some 7 ∧
    lkA (⟨1, 0, 9, 50, 0, 1, 0⟩ : SourceAllocation).callstack_id = none ∧
    0 < (⟨1, 0, 3, 100, 0, 2, 0⟩ : SourceAllocation).self_allocated ∧
    (lagScenario lkA ⟨1, 0, 3, 100, 0, 2, 0⟩ ⟨1, 0, 9, 50, 0, 1, 0⟩).2.1 =
      [⟨1, 7, 0, ((2 : Nat) : Int), ((100 : Nat) : Int),
        ((0 : Nat) : Int), ((0 : Nat) : Int)⟩] :=
  ⟨rfl, rfl, by decide,
   (c7_interning_lag lkA ⟨1, 0, 3, 100, 0, 2, 0⟩ ⟨1, 0, 9, 50, 0, 1, 0⟩ 7
     rfl rfl (by decide)).2.1⟩

/-- Claim C8, counterexample to the claim as stated: store a sample and
commit it with packet index 1, then store another sample and replay
FinalizeDump with the same packet index 1. The replay is a duplicate no-op
(as claim C6 requires), so after that FinalizeDump the pending list still
holds the second sample — it is not empty. -/
theorem c8_counterexample :
    (finalizeProfile lkA 1 (storeAllocation
      (finalizeProfile lkA 1 (storeAllocation SequenceState.init
        ⟨1, 0, 3, 5, 0, 0, 0⟩)).1 ⟨1, 0, 3, 5, 0, 0, 0⟩)).1.pending_allocs =
      [⟨1, 0, 3, 5, 0, 0, 0⟩] := rfl

/-- Claim C8, amended: after every FinalizeDump that actually commits (its
packet index exceeds the sequence's last-recorded index), the pending list
is empty — the sequence is back in Idle — and it stays empty across any
further FinalizeDump calls (the only operation that refills it is a new
StoreSample). -/
theorem c8_pending_cleared (lookup : InternLookup) (idx : Nat) (st : SequenceState)
    (h : st.last_profile_packet_index < idx) :
    (finalizeProfile lookup idx st).1.pending_allocs = [] ∧
    (∀ lookup2 idx2 st2, st2.pending_allocs = [] →
      (finalizeProfile lookup2 idx2 st2).1.pending_allocs = []) := by
  constructor
  · unfold finalizeProfile
    rw [if_neg (by omega)]
  · intro lookup2 idx2 st2 h2
    unfold finalizeProfile
    by_cases hdup : idx2 ≤ st2.last_profile_packet_index
    · rw [if_pos hdup]
      exact h2
    · rw [if_neg hdup]

/-- Witness for c8_pending_cleared: a first dump with packet index 1 on a
fresh sequence leaves the pending list empty. -/
theorem c8_pending_cleared_witness :
    SequenceState.init.last_profile_packet_index < 1 ∧
    (finalizeProfile lkA 1 SequenceState.init).1.pending_allocs = [] :=
  ⟨by decide, (c8_pending_cleared lkA 1 SequenceState.init (by decide)).1⟩

/-- Claim C4, counterexample to the claim as stated: with cumulative totals
c1 = c2 = c3 = 5 (so c1 <= c2 <= c3), the claim says the three dumps emit
deltas 5, 0 and 0 respectively; but FinalizeDump skips rows whose deltas
are all zero, so the second and third dumps emit no row at all — the deltas
c2 - c1 = 0 and c3 - c2 = 0 are never emitted. -/
theorem c4_counterexample :
    (threeDumps lkA 1 3 0 5 5 5).1 = [⟨1, 7, 0, 0, 5, 0, 0⟩] ∧
    (threeDumps lkA 1 3 0 5 5 5).2.1 = [] ∧
    (threeDumps lkA 1 3 0 5 5 5).2.2 = [] :=
  ⟨rfl, rfl, rfl⟩

/-- Claim C4, amended: for a fixed (subject, resolved callsite) on one
sequence, committing three successive dumps with cumulative totals
c1 <= c2 <= c3 commits the incremental deltas c1, c2 - c1 and c3 - c2
respectively (an absent prior total is treated as zero), except that a dump
whose delta is zero emits no row (all-zero rows are skipped); the emitted
deltas sum to c3. -/
theorem c4_delta_sequence (lookup : InternLookup) (p l cs : Nat) (ts : Int)
    (c1 c2 c3 : Nat) (hl : lookup l = some cs) (h12 : c1 ≤ c2) (h23 : c2 ≤ c3) :
    (threeDumps lookup p l ts c1 c2 c3).1 =
      (if c1 = 0 then [] else [⟨p, cs, ts, 0, (c1 : Int), 0, 0⟩]) ∧
    (threeDumps lookup p l ts c1 c2 c3).2.1 =
      (if c2 = c1 then [] else [⟨p, cs, ts, 0, (c2 : Int) - (c1 : Int), 0, 0⟩]) ∧
    (threeDumps lookup p l ts c1 c2 c3).2.2 =
      (if c3 = c2 then [] else [⟨p, cs, ts, 0, (c3 : Int) - (c2 : Int), 0, 0⟩]) ∧
    sumAllocBytes ((threeDumps lookup p l ts c1 c2 c3).1 ++
      (threeDumps lookup p l ts c1 c2 c3).2.1 ++
      (threeDumps lookup p l ts c1 c2 c3).2.2) = (c3 : Int) := by
  have hlt2 : ¬ c2 < c1 := by omega
  have hlt3 : ¬ c3 < c2 := by omega
  have hd1 : dump lookup 1 SequenceState.init (allocSample p l ts c1) =
      (⟨[], [((p, cs), (c1, 0))], [((p, cs), (0, 0))], 1⟩,
       if c1 = 0 then [] else [⟨p, cs, ts, 0, (c1 : Int), 0, 0⟩], []) := by
    by_cases h : c1 = 0
    · subst h
      simp [dump, finalizeProfile, storeAllocation, SequenceState.init, commitList,
        addAllocation, clampDelta, mapLookup, mapInsert, allocSample, hl]
    · simp [dump, finalizeProfile, storeAllocation, SequenceState.init, commitList,
        addAllocation, clampDelta, mapLookup, mapInsert, allocSample, hl, h,
        Nat.not_lt_zero]
  have hd2 : dump lookup 2
      (⟨[], [((p, cs), (c1, 0))], [((p, cs), (0, 0))], 1⟩ : SequenceState)
      (allocSample p l ts c2) =
      (⟨[], [((p, cs), (c2, 0))], [((p, cs), (0, 0))], 2⟩,
       if c2 = c1 then [] else [⟨p, cs, ts, 0, (c2 : Int) - (c1 : Int), 0, 0⟩], []) := by
    by_cases h : c2 = c1
    · subst h
      simp [dump, finalizeProfile, storeAllocation, commitList,
        addAllocation, clampDelta, mapLookup, mapInsert, allocSample, hl,
        Nat.not_lt_zero]
    · simp [dump, finalizeProfile, storeAllocation, commitList,
        addAllocation, clampDelta, mapLookup, mapInsert, allocSample, hl, h,
        hlt2, Nat.not_lt_zero, sub_eq_zero]
  have hd3 : dump lookup 3
      (⟨[], [((p, cs), (c2, 0))], [((p, cs), (0, 0))], 2⟩ : SequenceState)
      (allocSample p l ts c3) =
      (⟨[], [((p, cs), (c3, 0))], [((p, cs), (0, 0))], 3⟩,
       if c3 = c2 then [] else [⟨p, cs, ts, 0, (c3 : Int) - (c2 : Int), 0, 0⟩], []) := by
    by_cases h : c3 = c2
    · subst h
      simp [dump, finalizeProfile, storeAllocation, commitList,
        addAllocation, clampDelta, mapLookup, mapInsert, allocSample, hl,
        Nat.not_lt_zero]
    · simp [dump, finalizeProfile, storeAllocation, commitList,
        addAllocation, clampDelta, mapLookup, mapInsert, allocSample, hl, h,
        hlt3, Nat.not_lt_zero, sub_eq_zero]
  have htd : threeDumps lookup p l ts c1 c2 c3 =
      (if c1 = 0 then [] else [⟨p, cs, ts, 0, (c1 : Int), 0, 0⟩],
       if c2 = c1 then [] else [⟨p, cs, ts, 0, (c2 : Int) - (c1 : Int), 0, 0⟩],
       if c3 = c2 then [] else [⟨p, cs, ts, 0, (c3 : Int) - (c2 : Int), 0, 0⟩]) := by
    simp only [threeDumps]
    rw [hd1]
    simp only
    rw [hd2]
    simp only
    rw [hd3]
  rw [htd]
  refine ⟨rfl, rfl, rfl, ?_⟩
  split_ifs <;> simp [sumAllocBytes] <;> omega

/-- Witness for c4_delta_sequence: totals 1000, 1500, 1500; the emitted
deltas (1000 and 500, the zero third delta skipped) sum to 1500. -/
theorem c4_delta_sequence_witness :
    lkA 3 = some 7 ∧ (1000 : Nat) ≤ 1500 ∧ (1500 : Nat) ≤ 1500 ∧
    sumAllocBytes ((threeDumps lkA 1 3 0 1000 1500 1500).1 ++
      (threeDumps lkA 1 3 0 1000 1500 1500).2.1 ++
      (threeDumps lkA 1 3 0 1000 1500 1500).2.2) = ((1500 : Nat) : Int) :=
  ⟨rfl, by decide, by decide,
   (c4_delta_sequence lkA 1 3 7 0 1000 1500 1500 rfl (by decide) (by decide)).2.2.2⟩

end PerfettoModel
